import Mathlib

/-!
Verification of the kadalvazhi fishing-safety pipeline.

Shallow embedding of `backend/app/services/weather_service.py` and
`backend/app/agents/weather_agent.py`.  Python floats are modelled as
rationals (`ℚ`), Python ints as `ℤ`, Python `None`-able values as `Option`.
-/

namespace Kadalvazhi

/-- `WeatherData` from `backend/app/schemas/weather.py`: `temperature`,
`feels_like`, `wind_speed` are floats; `humidity`, `wind_direction`,
`cloud_coverage`, `pressure` are ints; `visibility` is `Optional[int]`. -/
structure WeatherData where
  temperature : ℚ
  feels_like : ℚ
  humidity : ℤ
  wind_speed : ℚ
  wind_direction : ℤ
  weather_condition : String
  cloud_coverage : ℤ
  visibility : Option ℤ
  pressure : ℤ
deriving DecidableEq, Repr

/-- Python truthiness of an `Optional[str]`: `None` and `""` are falsy. -/
def strTruthy : Option String → Bool
  | none => false
  | some s => s != ""

/-- `pat` occurs as a contiguous run at the head of `l`. -/
def listStartsWith [DecidableEq α] : List α → List α → Bool
  | [], _ => true
  | _ :: _, [] => false
  | a :: as, b :: bs => a == b && listStartsWith as bs

/-- `pat` occurs as a contiguous run somewhere in `l` (Python `pat in l`). -/
def listContainsSeq [DecidableEq α] (pat : List α) : List α → Bool
  | [] => listStartsWith pat []
  | l@(_ :: t) => listStartsWith pat l || listContainsSeq pat t

/-- Python `pat in s` for strings. -/
def strContainsSub (pat s : String) : Bool := listContainsSeq pat.data s.data

/-- Python `s.lower()`, character-wise (kernel-reducible form of
`String.toLower`). -/
def strLower (s : String) : String := ⟨s.data.map Char.toLower⟩

/-- The visibility guard of `analyze_risk_node`, line 81:
`weather.visibility and weather.visibility < 1000`.  Python truthiness makes
both `None` and `0` fail the first conjunct. -/
def visibilityRisk : Option ℤ → Bool
  | none => false
  | some v => v != 0 && decide (v < 1000)

/-- The condition-text guard of `analyze_risk_node`, lines 85-86:
`any(word in cond.lower() for word in ['rain', 'storm', 'thunderstorm'])`. -/
def badWeatherRisk (cond : String) : Bool :=
  (["rain", "storm", "thunderstorm"]).any (fun word => strContainsSub word (strLower cond))

/-- Risk-factor collection of `analyze_risk_node`, lines 72-99, in the
source's append order. -/
def riskFactors (w : WeatherData) : List String :=
  (if w.wind_speed > 10 then ["high_wind"]
   else if w.wind_speed > 5 then ["moderate_wind"] else [])
  ++ (if visibilityRisk w.visibility then ["poor_visibility"] else [])
  ++ (if badWeatherRisk w.weather_condition then ["bad_weather"] else [])
  ++ (if w.temperature < 15 then ["cold_temperature"]
      else if w.temperature > 38 then ["extreme_heat"] else [])
  ++ (if w.humidity > 85 then ["high_humidity"] else [])

/-- Tier derivation of `analyze_risk_node`, lines 101-108.  The source's
`len == 1` and final `else` branches both yield `"low"`. -/
def riskLevel (factors : List String) : String :=
  if (["high_wind", "bad_weather", "poor_visibility"]).any
      (fun risk => factors.contains risk) then "high"
  else if factors.length ≥ 2 then "medium"
  else if factors.length == 1 then "low"
  else "low"

/-- `WeatherAgentState` from `weather_agent.py` (the `check_date` field is
never read by any node and is omitted). -/
structure AgentState where
  location : String
  weather_data : Option WeatherData
  risk_factors : Option (List String)
  safe_to_fish : Option Bool
  risk_level : Option String
  recommendation : Option String
  best_fishing_hours : Option String
  precautions : Option (List String)
  error : Option String
deriving DecidableEq, Repr

/-- The initial state built by `check_weather_for_fishing`. -/
def initialState (location : String) : AgentState :=
  { location := location, weather_data := none, risk_factors := none,
    safe_to_fish := none, risk_level := none, recommendation := none,
    best_fishing_hours := none, precautions := none, error := none }

/-- Node 1 (`fetch_weather_node`): the network interaction is abstracted as
an `Except` outcome — `ok w` models a successful `service.get_weather`
call, `error e` models a raised exception whose message is `e` (for
`WeatherAPIError` the node stores `str(e)`; for any other exception it
stores a fixed message, still a nonempty string). -/
def fetch_weather_node (outcome : Except String WeatherData)
    (s : AgentState) : AgentState :=
  match outcome with
  | .ok w => { s with weather_data := some w, error := none }
  | .error e => { s with error := some e, weather_data := none }

/-- Node 2 (`analyze_risk_node`).  The guard is Python
`state.get('error') or not state.get('weather_data')`; a `WeatherData`
instance is always truthy, so only `None` weather data fails the second
conjunct. -/
def analyze_risk_node (s : AgentState) : AgentState :=
  match s.weather_data with
  | none => { s with risk_factors := some [], risk_level := some "unknown" }
  | some w =>
    if strTruthy s.error then
      { s with risk_factors := some [], risk_level := some "unknown" }
    else
      { s with risk_factors := some (riskFactors w),
               risk_level := some (riskLevel (riskFactors w)) }

/-- Base precautions of the `high` branch, lines 148-153. -/
def highPrecautions : List String :=
  ["Do NOT go fishing in these conditions",
   "Wait for weather to improve",
   "Check weather again in 6-12 hours",
   "Listen to local fisheries department advisories"]

/-- Base precautions of the `medium` branch, lines 164-171. -/
def mediumPrecautions : List String :=
  ["Only if you're experienced",
   "Ensure all safety equipment onboard",
   "Stay close to shore",
   "Monitor weather updates continuously",
   "Have communication equipment ready",
   "Inform family/authorities of your trip"]

/-- Base precautions of the `low` branch, lines 186-192. -/
def lowPrecautions : List String :=
  ["Carry sufficient drinking water",
   "Apply sunscreen (SPF 30+)",
   "Wear life jackets",
   "Bring first aid kit",
   "Keep emergency contacts handy"]

/-- The per-factor appends of `generate_recommendation_node`, lines
194-210: one `if "..." in risk_factors` append per factor, in source
order.  `bad_weather` has no append. -/
def factorPrecautions (rf : List String) : List String :=
  (if rf.contains "high_wind"
   then ["Strong winds - avoid deep sea fishing"] else [])
  ++ (if rf.contains "moderate_wind"
      then ["Moderate winds - stay alert"] else [])
  ++ (if rf.contains "poor_visibility"
      then ["Poor visibility - use fog horn and navigation lights"] else [])
  ++ (if rf.contains "cold_temperature"
      then ["Cold weather - wear warm clothing"] else [])
  ++ (if rf.contains "extreme_heat"
      then ["Extreme heat - take frequent breaks, stay hydrated"] else [])
  ++ (if rf.contains "high_humidity"
      then ["High humidity - ensure good ventilation on boat"] else [])

/-- Narrative of the `high` branch (adjacent f-string literals
concatenate). -/
def highNarrative (loc : String) : String :=
  "⚠️ NOT SAFE for fishing in " ++ loc ++ ". " ++
  "High risk conditions detected. " ++ "Please postpone your trip."

/-- Narrative of the `medium` branch. -/
def mediumNarrative (loc : String) : String :=
  "⚠️ CAUTION advised for fishing in " ++ loc ++ ". " ++
  "Moderate risk conditions. " ++
  "Only experienced fishermen with proper safety equipment should proceed."

/-- Narrative of the `low` branch.  Python's float `repr` of temperature
and wind speed is approximated by `ℚ`'s `toString`; no claim inspects
these two numerals. -/
def lowNarrative (loc : String) (w : WeatherData) : String :=
  "✅ GOOD conditions for fishing in " ++ loc ++ "! " ++
  "Temperature: " ++ toString w.temperature ++ "°C, " ++
  "Wind: " ++ toString w.wind_speed ++ " m/s. " ++ "Enjoy your fishing trip!"

/-- Narrative of the error branch, lines 125-128. -/
def errorNarrative (e : String) : String :=
  "Unable to provide fishing recommendation due to error: " ++ e

/-- Node 3 (`generate_recommendation_node`).  `none` models the Python
crashes that the node would hit outside the pipeline's reachable states:
`"high_wind" in None` (`TypeError`) when `risk_factors` is `None` off the
error path, and `None.temperature` (`AttributeError`) in the `else`
branch when `weather_data` is `None`.  Neither state is reachable from
`check_weather_for_fishing`. -/
def generate_recommendation_node (s : AgentState) : Option AgentState :=
  if strTruthy s.error then
    some { s with
           safe_to_fish := some false,
           recommendation := some (errorNarrative (s.error.getD "")),
           best_fishing_hours := none,
           precautions := some [] }
  else
    match s.risk_factors with
    | none => none
    | some rf =>
      if s.risk_level = some "high" then
        some { s with
               safe_to_fish := some false,
               recommendation := some (highNarrative s.location),
               best_fishing_hours := none,
               precautions := some (highPrecautions ++ factorPrecautions rf) }
      else if s.risk_level = some "medium" then
        some { s with
               safe_to_fish := some false,
               recommendation := some (mediumNarrative s.location),
               best_fishing_hours := some "Early morning (5:00 AM - 8:00 AM)",
               precautions :=
                 some (mediumPrecautions ++ factorPrecautions rf) }
      else
        match s.weather_data with
        | none => none
        | some w =>
          some { s with
                 safe_to_fish := some true,
                 recommendation := some (lowNarrative s.location w),
                 best_fishing_hours :=
                   some ("Early morning (5:00 AM - 9:00 AM) or " ++
                     "Late afternoon (4:00 PM - 6:00 PM)"),
                 precautions :=
                   some (lowPrecautions ++ factorPrecautions rf) }

/-- `check_weather_for_fishing`: the linear graph
`fetch_weather → analyze_risk → generate_recommendation`, with the fetch
outcome abstracted as in `fetch_weather_node`. -/
def runAgent (location : String) (outcome : Except String WeatherData) :
    Option AgentState :=
  generate_recommendation_node
    (analyze_risk_node (fetch_weather_node outcome (initialState location)))

/-! ### Weather service (`backend/app/services/weather_service.py`) -/

/-- Combined outcome of one loop iteration's `_fetch_from_api` +
`_parse_response` call: `success` is a parsed `WeatherData`; `notFound` is
a `LocationNotFoundError` propagating out of `_fetch_from_api` (HTTP 404);
`transient` is any other exception (timeout, transport error, non-404 HTTP
error, parse failure), all of which reach the generic `except Exception`
handler of `get_weather`. -/
inductive AttemptOutcome where
  | success (w : WeatherData)
  | notFound
  | transient
deriving DecidableEq, Repr

/-- Result of `get_weather`: `ok` is a returned observation; `notFound` a
re-raised `LocationNotFoundError`; `providerError` a `WeatherAPIError`
with its message; `noneReturn` is Python's implicit `None` when the
`for attempt in range(max_retries)` loop body never runs. -/
inductive FetchResult where
  | ok (w : WeatherData)
  | notFound
  | providerError (msg : String)
  | noneReturn
deriving DecidableEq, Repr

/-- The `WeatherAPIError` message of `get_weather`, lines 83-86. -/
def weatherAPIErrorMsg (maxRetries : ℤ) : String :=
  "Unable to fetch weather data after " ++ toString maxRetries ++
  " attempts. " ++ "Please try again later or check alternative sources."

/-- The retry loop of `get_weather`, iterating `attempt` over
`range(max_retries)` (`fuel` is the number of iterations left, so the
loop starts with `fuel = max 0 maxRetries`).  Returns the result, the
number of attempts executed from this point, and the list of backoff
sleeps (`2 ** attempt` seconds) performed, in order. -/
def getWeatherGo (script : ℕ → AttemptOutcome) (maxRetries : ℤ) :
    ℕ → ℕ → FetchResult × ℕ × List ℕ
  | _, 0 => (.noneReturn, 0, [])
  | attempt, fuel + 1 =>
    match script attempt with
    | .success w => (.ok w, 1, [])
    | .notFound => (.notFound, 1, [])
    | .transient =>
      if (attempt : ℤ) < maxRetries - 1 then
        let r := getWeatherGo script maxRetries (attempt + 1) fuel
        (r.1, r.2.1 + 1, 2 ^ attempt :: r.2.2)
      else
        (.providerError (weatherAPIErrorMsg maxRetries), 1, [])

/-- `get_weather(location, max_retries)` with the per-attempt network/parse
outcomes abstracted as `script`.  Python's default is `max_retries = 3`. -/
def get_weather (script : ℕ → AttemptOutcome) (maxRetries : ℤ := 3) :
    FetchResult × ℕ × List ℕ :=
  getWeatherGo script maxRetries 0 maxRetries.toNat

/-! ### `_fetch_from_api` request-parameter construction -/

/-- Python `s.strip()`: drop leading and trailing whitespace
(kernel-reducible form of `String.trim`). -/
def strStrip (s : String) : String :=
  ⟨((s.data.dropWhile Char.isWhitespace).reverse.dropWhile
      Char.isWhitespace).reverse⟩

/-- Split a character list at every occurrence of `sep` (Python
`str.split` with a one-character separator: `""` splits to `[""]`,
adjacent separators produce empty parts). -/
def splitOnChar (sep : Char) : List Char → List (List Char)
  | [] => [[]]
  | c :: t =>
    if c == sep then [] :: splitOnChar sep t
    else
      match splitOnChar sep t with
      | h :: r => (c :: h) :: r
      | [] => [[c]]

/-- Python `location.split(',')`. -/
def strSplitComma (s : String) : List String :=
  (splitOnChar ',' s.data).map (fun cs => ⟨cs⟩)

/-- Numeric value of a decimal-digit character. -/
def digitVal (c : Char) : ℕ := c.toNat - ('0').toNat

/-- Value of a digit run, most significant first. -/
def natOfDigits (ds : List Char) : ℕ :=
  ds.foldl (fun a c => a * 10 + digitVal c) 0

/-- Mantissa of a Python float literal: digits, optionally with one
decimal point, at least one digit overall.  Returns the value and the
unconsumed characters. -/
def parseMantissa (cs : List Char) : Option (ℚ × List Char) :=
  let ip := cs.takeWhile Char.isDigit
  let rest := cs.dropWhile Char.isDigit
  match rest with
  | '.' :: rest2 =>
    let fp := rest2.takeWhile Char.isDigit
    let rest3 := rest2.dropWhile Char.isDigit
    if ip.isEmpty && fp.isEmpty then none
    else some ((natOfDigits ip : ℚ) +
      (natOfDigits fp : ℚ) / ((10 : ℚ) ^ fp.length), rest3)
  | _ => if ip.isEmpty then none else some ((natOfDigits ip : ℚ), rest)

/-- Model of Python `float(s)` on the standard decimal grammar
`[sign] digits [. digits] [(e|E) [sign] digits]` with surrounding
whitespace stripped; the special forms (`inf`, `nan`, digit
underscores) are not modelled — no caller in this repository sends
them.  Returns the exact decimal value as a rational. -/
def pyFloat (s : String) : Option ℚ :=
  let cs := (strStrip s).data
  let sgncs : ℚ × List Char :=
    match cs with
    | '+' :: t => (1, t)
    | '-' :: t => (-1, t)
    | _ => (1, cs)
  match parseMantissa sgncs.2 with
  | none => none
  | some (m, rest) =>
    match rest with
    | [] => some (sgncs.1 * m)
    | 'e' :: t => pyFloatExp (sgncs.1 * m) t
    | 'E' :: t => pyFloatExp (sgncs.1 * m) t
    | _ => none
where
  /-- Exponent part after `e`/`E`. -/
  pyFloatExp (m : ℚ) (t : List Char) : Option ℚ :=
    let sgnt : ℤ × List Char :=
      match t with
      | '+' :: u => (1, u)
      | '-' :: u => (-1, u)
      | _ => (1, t)
    let eds := sgnt.2.takeWhile Char.isDigit
    let rest := sgnt.2.dropWhile Char.isDigit
    if eds.isEmpty || !rest.isEmpty then none
    else some (m * (10 : ℚ) ^ (sgnt.1 * (natOfDigits eds : ℤ)))

/-- The query parameters `_fetch_from_api` sends (the constant
`appid`/`units`/`lang` entries are left implicit): either
`lat=…&lon=…` or `q=…`. -/
inductive RequestParams where
  | coords (lat lon : ℚ)
  | byName (q : String)
deriving DecidableEq, Repr

/-- Parameter construction of `_fetch_from_api`, lines 96-125: a string
containing a comma is split on `','`; `float(parts[0].strip())` and
`float(parts[1].strip())` are attempted, and on `ValueError`/`IndexError`
the whole original string silently becomes a name query. -/
def buildRequestParams (location : String) : RequestParams :=
  if location.data.contains ',' then
    match strSplitComma location with
    | p0 :: p1 :: _ =>
      match pyFloat (strStrip p0), pyFloat (strStrip p1) with
      | some lat, some lon => .coords lat lon
      | _, _ => .byName location
    | _ => .byName location
  else .byName location

/-! ### `_parse_response` -/

/-- The provider JSON fields `_parse_response` reads, each `Option` to
model a missing key (a missing enclosing object — e.g. no `"main"` at
all, or an empty `"weather"` array — is modelled the same way, since
either raises into the same `except` handlers). -/
structure RawResponse where
  main_temp : Option ℚ
  main_feels_like : Option ℚ
  main_humidity : Option ℤ
  main_pressure : Option ℤ
  wind_speed : Option ℚ
  wind_deg : Option ℤ
  weather0_description : Option String
  clouds_all : Option ℤ
  visibility : Option ℤ
deriving DecidableEq, Repr

/-- `_parse_response`, lines 153-180: mandatory fields are read with
`data[...]` (a missing key raises `KeyError`, converted to
`WeatherAPIError`); `wind.deg` is read with `.get("deg", 0)` and
`visibility` with `.get("visibility")`.  Pydantic's range validation is
not modelled (no claim concerns it). -/
def parse_response (d : RawResponse) : Except String WeatherData :=
  match d.main_temp, d.main_feels_like, d.main_humidity, d.wind_speed,
        d.weather0_description, d.clouds_all, d.main_pressure with
  | some t, some fl, some h, some ws, some desc, some ca, some p =>
    .ok { temperature := t, feels_like := fl, humidity := h,
          wind_speed := ws, wind_direction := d.wind_deg.getD 0,
          weather_condition := desc, cloud_coverage := ca,
          visibility := d.visibility, pressure := p }
  | _, _, _, _, _, _, _ =>
    .error "Unable to parse weather data: unexpected API response format"

/-! ### Spec-level definitions (for refinement comparison)

These two definitions follow the words of spec §4.3's rule table and
factor→precaution mapping; the claims compare the source-level
`generate_recommendation_node` against them. -/

/-- Spec §4.3 rule table: base precautions per tier (`unknown` and any
other tier have none). -/
def basePrecautions : String → List String
  | "high" => highPrecautions
  | "medium" => mediumPrecautions
  | "low" => lowPrecautions
  | _ => []

/-- Spec §4.3 fixed factor→precaution mapping.  `bad_weather` is the one
risk factor with no mapped precaution. -/
def mappedPrecaution (f : String) : Option String :=
  if f = "high_wind" then some "Strong winds - avoid deep sea fishing"
  else if f = "moderate_wind" then some "Moderate winds - stay alert"
  else if f = "poor_visibility" then
    some "Poor visibility - use fog horn and navigation lights"
  else if f = "cold_temperature" then some "Cold weather - wear warm clothing"
  else if f = "extreme_heat" then
    some "Extreme heat - take frequent breaks, stay hydrated"
  else if f = "high_humidity" then
    some "High humidity - ensure good ventilation on boat"
  else none

/-! ### Supporting lemmas -/

lemma strTruthy_none : strTruthy none = false := rfl

lemma strTruthy_some_of_ne (e : String) (he : e ≠ "") :
    strTruthy (some e) = true := by
  simpa [strTruthy] using he

lemma visibilityRisk_iff (vis : Option ℤ) :
    visibilityRisk vis = true ↔ ∃ v, vis = some v ∧ v ≠ 0 ∧ v < 1000 := by
  cases vis <;> simp [visibilityRisk]

lemma riskLevel_cases (fs : List String) :
    riskLevel fs = "high" ∨ riskLevel fs = "medium" ∨ riskLevel fs = "low" := by
  unfold riskLevel
  split_ifs <;> simp

/-- The source's per-factor append block agrees with the spec mapping on
every factor list the classifier can produce. -/
lemma factorPrecautions_eq_filterMap (w : WeatherData) :
    factorPrecautions (riskFactors w) =
      (riskFactors w).filterMap mappedPrecaution := by
  unfold riskFactors
  split_ifs <;> decide

lemma analyze_fetch_ok (loc : String) (w : WeatherData) :
    analyze_risk_node (fetch_weather_node (.ok w) (initialState loc)) =
      { location := loc, weather_data := some w,
        risk_factors := some (riskFactors w),
        risk_level := some (riskLevel (riskFactors w)),
        safe_to_fish := none, recommendation := none,
        best_fishing_hours := none, precautions := none, error := none } := rfl

lemma runAgent_ok_high (loc : String) (w : WeatherData)
    (h : riskLevel (riskFactors w) = "high") :
    runAgent loc (.ok w) = some
      { location := loc, weather_data := some w,
        risk_factors := some (riskFactors w),
        risk_level := some (riskLevel (riskFactors w)),
        safe_to_fish := some false,
        recommendation := some (highNarrative loc),
        best_fishing_hours := none,
        precautions := some (highPrecautions ++ factorPrecautions (riskFactors w)),
        error := none } := by
  unfold runAgent
  rw [analyze_fetch_ok]
  simp [generate_recommendation_node, strTruthy, h]

lemma runAgent_ok_medium (loc : String) (w : WeatherData)
    (h : riskLevel (riskFactors w) = "medium") :
    runAgent loc (.ok w) = some
      { location := loc, weather_data := some w,
        risk_factors := some (riskFactors w),
        risk_level := some (riskLevel (riskFactors w)),
        safe_to_fish := some false,
        recommendation := some (mediumNarrative loc),
        best_fishing_hours := some "Early morning (5:00 AM - 8:00 AM)",
        precautions :=
          some (mediumPrecautions ++ factorPrecautions (riskFactors w)),
        error := none } := by
  unfold runAgent
  rw [analyze_fetch_ok]
  simp [generate_recommendation_node, strTruthy, h]

lemma runAgent_ok_low (loc : String) (w : WeatherData)
    (h : riskLevel (riskFactors w) = "low") :
    runAgent loc (.ok w) = some
      { location := loc, weather_data := some w,
        risk_factors := some (riskFactors w),
        risk_level := some (riskLevel (riskFactors w)),
        safe_to_fish := some true,
        recommendation := some (lowNarrative loc w),
        best_fishing_hours := some ("Early morning (5:00 AM - 9:00 AM) or " ++
          "Late afternoon (4:00 PM - 6:00 PM)"),
        precautions := some (lowPrecautions ++ factorPrecautions (riskFactors w)),
        error := none } := by
  unfold runAgent
  rw [analyze_fetch_ok]
  simp [generate_recommendation_node, strTruthy, h]

lemma runAgent_error (loc e : String) (he : e ≠ "") :
    runAgent loc (.error e) = some
      { location := loc, weather_data := none,
        risk_factors := some [],
        risk_level := some "unknown",
        safe_to_fish := some false,
        recommendation := some (errorNarrative e),
        best_fishing_hours := none,
        precautions := some [],
        error := some e } := by
  unfold runAgent
  have h1 : analyze_risk_node (fetch_weather_node (.error e) (initialState loc)) =
      { location := loc, weather_data := none,
        risk_factors := some [], risk_level := some "unknown",
        safe_to_fish := none, recommendation := none,
        best_fishing_hours := none, precautions := none,
        error := some e } := rfl
  rw [h1]
  simp [generate_recommendation_node, strTruthy_some_of_ne e he, errorNarrative]

lemma majors_any_iff (fs : List String) :
    ((["high_wind", "bad_weather", "poor_visibility"]).any
        (fun risk => fs.contains risk) = true) ↔
      ∃ r ∈ fs, r = "high_wind" ∨ r = "bad_weather" ∨ r = "poor_visibility" := by
  simp [List.any_eq_true, List.elem_iff]
  aesop

/-! ### Claim theorems -/

/-- A calm observation whose `visibility` is present and equal to `0`:
every other factor guard is off. -/
def wVisZero : WeatherData :=
  { temperature := 20, feels_like := 20, humidity := 50, wind_speed := 0,
    wind_direction := 0, weather_condition := "clear sky",
    cloud_coverage := 0, visibility := some 0, pressure := 1013 }

/-- C1, counterexample: `wVisZero` has visibility present, equal to `0`
and below 1000 m, yet the classifier does not emit `poor_visibility` —
Python's truthiness check `weather.visibility and …` treats a present
`0` like an absent value. -/
theorem visibility_zero_not_flagged :
    wVisZero.visibility = some 0 ∧ (0 : ℤ) < 1000 ∧
      "poor_visibility" ∉ riskFactors wVisZero := by decide

/-- C1 (amended): `poor_visibility` is in the factor set iff visibility
is present, **nonzero** and `< 1000`; an absent visibility, a present
`0`, and any value `≥ 1000` all leave the factor out. -/
theorem poor_visibility_iff_nonzero_below_1000 (w : WeatherData) :
    "poor_visibility" ∈ riskFactors w ↔
      ∃ v, w.visibility = some v ∧ v ≠ 0 ∧ v < 1000 := by
  have hmem : "poor_visibility" ∈ riskFactors w ↔
      visibilityRisk w.visibility = true := by
    unfold riskFactors
    split_ifs <;> simp_all +decide
  rw [hmem, visibilityRisk_iff]

/-- C3: the tier is `high` iff the factor set meets
{`high_wind`, `bad_weather`, `poor_visibility`}; otherwise `medium` iff
at least two factors fired; otherwise `low`, for one minor factor or
none. -/
theorem tier_assignment (w : WeatherData) :
    (riskLevel (riskFactors w) = "high" ↔
      ∃ r ∈ riskFactors w,
        r = "high_wind" ∨ r = "bad_weather" ∨ r = "poor_visibility") ∧
    ((¬ ∃ r ∈ riskFactors w,
        r = "high_wind" ∨ r = "bad_weather" ∨ r = "poor_visibility") →
      (riskLevel (riskFactors w) = "medium" ↔ 2 ≤ (riskFactors w).length)) ∧
    ((¬ ∃ r ∈ riskFactors w,
        r = "high_wind" ∨ r = "bad_weather" ∨ r = "poor_visibility") →
      (riskFactors w).length ≤ 1 → riskLevel (riskFactors w) = "low") := by
  have hm := majors_any_iff (riskFactors w)
  unfold riskLevel
  split_ifs with h1 h2 h3 <;> simp_all
  omega

/-- C3, witness: a zero-factor observation (`visibility := some 0` keeps
it factor-free) is assigned tier `low`. -/
theorem tier_assignment_witness :
    riskLevel (riskFactors wVisZero) = "low" :=
  (tier_assignment wVisZero).2.2 (by decide) (by decide)

/-- An observation whose only active factor is `bad_weather`. -/
def wRainOnly : WeatherData :=
  { temperature := 20, feels_like := 20, humidity := 50, wind_speed := 0,
    wind_direction := 0, weather_condition := "rain", cloud_coverage := 50,
    visibility := some 10000, pressure := 1013 }

/-- C2, counterexample: with `bad_weather` as the only active factor the
tier is `high` (base count 4) and the final precaution list is exactly
the 4 base precautions — not 4 + 1 as the claim's "one precaution
appended per active factor" requires, because `bad_weather` has no
mapped precaution in `generate_recommendation_node`. -/
theorem bad_weather_appends_no_precaution :
    (runAgent "Chennai" (.ok wRainOnly)).bind (fun s => s.risk_factors) =
      some ["bad_weather"] ∧
    (runAgent "Chennai" (.ok wRainOnly)).bind (fun s => s.risk_level) =
      some "high" ∧
    (runAgent "Chennai" (.ok wRainOnly)).bind (fun s => s.precautions) =
      some highPrecautions ∧
    highPrecautions.length = 4 ∧ (4 : ℕ) ≠ 4 + 1 := by decide

/-- C2 (amended): on the successful-fetch path the precaution list is the
tier's base list (high: 4, medium: 6, low: 5 entries) followed by exactly
one precaution per active factor **that has a mapped precaution**
(`bad_weather` has none), in the classifier's evaluation order, with no
deduplication; the length is the base count plus the count of mapped
factors. -/
theorem precautions_base_plus_mapped_factors (loc : String) (w : WeatherData)
    (s : AgentState) (h : runAgent loc (.ok w) = some s) :
    ∃ rf tier p, s.risk_factors = some rf ∧ s.risk_level = some tier ∧
      s.precautions = some p ∧
      p = basePrecautions tier ++ rf.filterMap mappedPrecaution ∧
      p.length = (if tier = "high" then 4 else if tier = "medium" then 6
        else if tier = "low" then 5 else 0) +
        (rf.filterMap mappedPrecaution).length := by
  rcases riskLevel_cases (riskFactors w) with hl | hl | hl
  · rw [runAgent_ok_high loc w hl] at h
    injection h with h
    subst h
    refine ⟨riskFactors w, riskLevel (riskFactors w), _, rfl, rfl, rfl, ?_, ?_⟩
    · rw [hl, factorPrecautions_eq_filterMap]
      rfl
    · rw [hl, factorPrecautions_eq_filterMap]
      simp [highPrecautions]
      omega
  · rw [runAgent_ok_medium loc w hl] at h
    injection h with h
    subst h
    refine ⟨riskFactors w, riskLevel (riskFactors w), _, rfl, rfl, rfl, ?_, ?_⟩
    · rw [hl, factorPrecautions_eq_filterMap]
      rfl
    · rw [hl, factorPrecautions_eq_filterMap]
      simp [mediumPrecautions]
      omega
  · rw [runAgent_ok_low loc w hl] at h
    injection h with h
    subst h
    refine ⟨riskFactors w, riskLevel (riskFactors w), _, rfl, rfl, rfl, ?_, ?_⟩
    · rw [hl, factorPrecautions_eq_filterMap]
      rfl
    · rw [hl, factorPrecautions_eq_filterMap]
      simp [lowPrecautions]
      omega

/-- The final pipeline state on `wRainOnly` (used to instantiate the C2
theorem). -/
def sRainOnly : AgentState :=
  { location := "Chennai", weather_data := some wRainOnly,
    risk_factors := some ["bad_weather"], risk_level := some "high",
    safe_to_fish := some false,
    recommendation := some (highNarrative "Chennai"),
    best_fishing_hours := none,
    precautions := some highPrecautions, error := none }

/-- C2, witness: the amended theorem applied to the `wRainOnly` run. -/
theorem precautions_base_plus_mapped_factors_witness :
    ∃ rf tier p, sRainOnly.risk_factors = some rf ∧
      sRainOnly.risk_level = some tier ∧ sRainOnly.precautions = some p ∧
      p = basePrecautions tier ++ rf.filterMap mappedPrecaution ∧
      p.length = (if tier = "high" then 4 else if tier = "medium" then 6
        else if tier = "low" then 5 else 0) +
        (rf.filterMap mappedPrecaution).length :=
  precautions_base_plus_mapped_factors "Chennai" wRainOnly sRainOnly (by decide)

/-- C4: every recommendation the pipeline actually produces (successful
fetch or fetch failure) has `safe_to_fish = true` exactly when the tier
is `low`; tiers `high`, `medium` and `unknown` always come with
`safe_to_fish = false`. -/
theorem safe_to_fish_iff_low_tier (loc : String)
    (oc : Except String WeatherData) (s : AgentState)
    (h : runAgent loc oc = some s) :
    (s.safe_to_fish = some true ↔ s.risk_level = some "low") ∧
    ((s.risk_level = some "high" ∨ s.risk_level = some "medium" ∨
      s.risk_level = some "unknown") → s.safe_to_fish = some false) := by
  cases oc with
  | error e =>
    by_cases he : e = ""
    · subst he
      exact absurd h (by simp [show runAgent loc (.error "") = none from rfl])
    · rw [runAgent_error loc e he] at h
      injection h with h
      subst h
      simp
  | ok w =>
    rcases riskLevel_cases (riskFactors w) with hl | hl | hl
    · rw [runAgent_ok_high loc w hl] at h
      injection h with h
      subst h
      simp [hl]
    · rw [runAgent_ok_medium loc w hl] at h
      injection h with h
      subst h
      simp [hl]
    · rw [runAgent_ok_low loc w hl] at h
      injection h with h
      subst h
      simp [hl]

/-- C4, witness: the theorem applied to the `wRainOnly` run, whose tier
is `high` and whose recommendation is unsafe. -/
theorem safe_to_fish_iff_low_tier_witness :
    (sRainOnly.safe_to_fish = some true ↔ sRainOnly.risk_level = some "low") ∧
    ((sRainOnly.risk_level = some "high" ∨ sRainOnly.risk_level = some "medium" ∨
      sRainOnly.risk_level = some "unknown") →
      sRainOnly.safe_to_fish = some false) :=
  safe_to_fish_iff_low_tier "Chennai" (.ok wRainOnly) sRainOnly (by decide)

/-- C8: on any fetcher failure with message `e` (every message the
service raises is a nonempty string), classification and recommendation
are skipped: the final state is tier `unknown`, unsafe, with empty factor
and precaution lists, no fishing hours, and a narrative that contains the
failure message. -/
theorem fetch_failure_short_circuits (loc e : String) (he : e ≠ "") :
    ∃ s, runAgent loc (.error e) = some s ∧
      s.risk_level = some "unknown" ∧ s.safe_to_fish = some false ∧
      s.risk_factors = some [] ∧ s.precautions = some [] ∧
      s.best_fishing_hours = none ∧
      s.recommendation = some (errorNarrative e) ∧
      ∃ pre post, (errorNarrative e).data = pre ++ e.data ++ post := by
  refine ⟨_, runAgent_error loc e he, rfl, rfl, rfl, rfl, rfl, rfl,
    ("Unable to provide fishing recommendation due to error: ").data, [], ?_⟩
  simp [errorNarrative, String.data_append]

/-- C8, witness: the theorem applied to a concrete failure message. -/
theorem fetch_failure_short_circuits_witness :
    ∃ s, runAgent "Chennai" (.error "Weather API request timed out") = some s ∧
      s.risk_level = some "unknown" ∧ s.safe_to_fish = some false ∧
      s.risk_factors = some [] ∧ s.precautions = some [] ∧
      s.best_fishing_hours = none ∧
      s.recommendation =
        some (errorNarrative "Weather API request timed out") ∧
      ∃ pre post, (errorNarrative "Weather API request timed out").data =
        pre ++ ("Weather API request timed out").data ++ post :=
  fetch_failure_short_circuits "Chennai" "Weather API request timed out"
    (by decide)

lemma getWeatherGo_transient (script : ℕ → AttemptOutcome)
    (hs : ∀ i, script i = .transient) (n : ℤ) :
    ∀ (f a : ℕ), 1 ≤ f → (a : ℤ) + (f : ℤ) = n →
      getWeatherGo script n a f =
        (.providerError (weatherAPIErrorMsg n), f,
          (List.range (f - 1)).map (fun i => 2 ^ (a + i))) := by
  intro f
  induction f with
  | zero => omega
  | succ f ih =>
    intro a hf hsum
    rcases Nat.eq_zero_or_pos f with hf0 | hfpos
    · subst hf0
      unfold getWeatherGo
      rw [hs a]
      have hc : ¬ ((a : ℤ) < n - 1) := by push_cast at hsum; omega
      simp [hc]
    · have hc : (a : ℤ) < n - 1 := by push_cast at hsum; omega
      unfold getWeatherGo
      rw [hs a]
      simp only [hc, if_true]
      rw [ih (a + 1) hfpos (by push_cast; push_cast at hsum; omega)]
      have hrange : (List.range (f + 1 - 1)).map (fun i => 2 ^ (a + i)) =
          2 ^ a :: (List.range (f - 1)).map (fun i => 2 ^ (a + 1 + i)) := by
        obtain ⟨f', rfl⟩ : ∃ f', f = f' + 1 := ⟨f - 1, by omega⟩
        simp [List.range_succ_eq_map, List.map_map, Function.comp]
        intro i _
        omega
      rw [hrange]

/-- C5: when the first attempt reports HTTP 404, `get_weather` re-raises
the `LocationNotFoundError` immediately — exactly one attempt, an empty
backoff-delay list — for every `max_retries ≥ 1`. -/
theorem notfound_raised_after_one_attempt (script : ℕ → AttemptOutcome)
    (n : ℤ) (hn : 1 ≤ n) (h0 : script 0 = .notFound) :
    get_weather script n = (.notFound, 1, []) := by
  unfold get_weather
  obtain ⟨k, hk⟩ : ∃ k, n.toNat = k + 1 := ⟨n.toNat - 1, by omega⟩
  rw [hk]
  unfold getWeatherGo
  rw [h0]

/-- C5, witness: a 404 on the first attempt with the default
`max_retries = 3`. -/
theorem notfound_raised_after_one_attempt_witness :
    get_weather (fun _ => .notFound) 3 = (.notFound, 1, []) :=
  notfound_raised_after_one_attempt (fun _ => .notFound) 3 (by decide) rfl

/-- C6: when every attempt fails transiently, `get_weather` performs
exactly `max_retries` attempts with backoff delays `2 ^ attempt`
(1, 2, 4, …) between consecutive attempts — none after the last — and
raises `WeatherAPIError` whose message names the attempt count. -/
theorem transient_failures_exhaust_retries (script : ℕ → AttemptOutcome)
    (n : ℤ) (hn : 1 ≤ n) (hs : ∀ i, script i = .transient) :
    get_weather script n =
      (.providerError (weatherAPIErrorMsg n), n.toNat,
        (List.range (n.toNat - 1)).map (fun i => 2 ^ i)) ∧
    ∃ pre post, (weatherAPIErrorMsg n).data =
      pre ++ (toString n).data ++ post := by
  constructor
  · unfold get_weather
    rw [getWeatherGo_transient script hs n n.toNat 0 (by omega) (by omega)]
    simp
  · exact ⟨("Unable to fetch weather data after ").data,
      (" attempts. " ++
        "Please try again later or check alternative sources.").data,
      by simp [weatherAPIErrorMsg, String.data_append]⟩

/-- C6, witness: with the default `max_retries = 3` the delays are
`[1, 2]` and the third failure raises the provider error. -/
theorem transient_failures_exhaust_retries_witness :
    (get_weather (fun _ => .transient) 3 =
      (.providerError (weatherAPIErrorMsg 3), (3 : ℤ).toNat,
        (List.range ((3 : ℤ).toNat - 1)).map (fun i => 2 ^ i))) ∧
    ((List.range ((3 : ℤ).toNat - 1)).map (fun i => (2 : ℕ) ^ i) = [1, 2]) ∧
    (∃ pre post, (weatherAPIErrorMsg 3).data =
      pre ++ (toString (3 : ℤ)).data ++ post) :=
  ⟨(transient_failures_exhaust_retries (fun _ => .transient) 3 (by decide)
      (fun _ => rfl)).1,
   by decide,
   (transient_failures_exhaust_retries (fun _ => .transient) 3 (by decide)
      (fun _ => rfl)).2⟩

/-- C10: with `max_retries ≤ 0` the `range(max_retries)` loop body never
runs, so `get_weather` makes no attempt, raises nothing and falls off the
function — Python's implicit `None` — breaching the
observation-or-classified-error contract. -/
theorem nonpositive_max_retries_returns_none (script : ℕ → AttemptOutcome)
    (n : ℤ) (hn : n ≤ 0) :
    get_weather script n = (.noneReturn, 0, []) := by
  unfold get_weather
  have h : n.toNat = 0 := by omega
  rw [h]
  rfl

/-- C10, witness: `max_retries = 0` returns the implicit `None` even when
an attempt would have succeeded. -/
theorem nonpositive_max_retries_returns_none_witness :
    get_weather (fun _ => .success wVisZero) 0 = (.noneReturn, 0, []) :=
  nonpositive_max_retries_returns_none (fun _ => .success wVisZero) 0
    (by decide)

/-- C7: for a comma-containing location whose first two comma-separated
parts both parse as floats, the request carries `lat`/`lon` set to those
values; if either part fails to parse, the fetcher silently falls back to
a name query carrying the whole original string (no error is raised —
`buildRequestParams` is total). -/
theorem coordinate_parsing_with_fallback (loc p0 p1 : String)
    (rest : List String) (hc : loc.data.contains ',' = true)
    (hsplit : strSplitComma loc = p0 :: p1 :: rest) :
    (∀ lat lon, pyFloat (strStrip p0) = some lat →
      pyFloat (strStrip p1) = some lon →
      buildRequestParams loc = .coords lat lon) ∧
    ((pyFloat (strStrip p0) = none ∨ pyFloat (strStrip p1) = none) →
      buildRequestParams loc = .byName loc) := by
  have hb : buildRequestParams loc =
      match pyFloat (strStrip p0), pyFloat (strStrip p1) with
      | some lat, some lon => .coords lat lon
      | _, _ => .byName loc := by
    have hc' : ',' ∈ loc.data := by simpa [List.elem_iff] using hc
    unfold buildRequestParams
    rw [hsplit]
    simp [hc']
  constructor
  · intro lat lon h1 h2
    rw [hb, h1, h2]
  · rintro (h | h)
    · rw [hb, h]
    · rcases h0 : pyFloat (strStrip p0) with _ | lat <;> rw [hb, h0, h]

/-- C7, witness: `"13.08,80.27"` goes out as coordinates
`lat = 13.08, lon = 80.27`; `"13.08,abc"` silently degrades to a name
query for the whole string. -/
theorem coordinate_parsing_with_fallback_witness :
    buildRequestParams "13.08,80.27" =
      .coords ((1308 : ℚ) / 100) ((8027 : ℚ) / 100) ∧
    buildRequestParams "13.08,abc" = .byName "13.08,abc" :=
  ⟨(coordinate_parsing_with_fallback "13.08,80.27" "13.08" "80.27" []
      (by decide) (by decide)).1 ((1308 : ℚ) / 100) ((8027 : ℚ) / 100)
      (by simp +decide [pyFloat, pyFloat.pyFloatExp, parseMantissa, strStrip,
            natOfDigits, digitVal]
          norm_num)
      (by simp +decide [pyFloat, pyFloat.pyFloatExp, parseMantissa, strStrip,
            natOfDigits, digitVal]
          norm_num),
   (coordinate_parsing_with_fallback "13.08,abc" "13.08" "abc" []
      (by decide) (by decide)).2 (Or.inr (by decide))⟩

/-- C9: a successful response missing any mandatory field (temperature,
feels-like, humidity, wind speed, condition text, cloud coverage,
pressure) fails with the `WeatherAPIError` parse message; with all
mandatory fields present it succeeds, defaulting a missing wind direction
to `0` and passing `visibility` through unchanged — an absent visibility
stays absent, never `0`. -/
theorem parse_mandatory_and_optional_fields (d : RawResponse) :
    ((d.main_temp = none ∨ d.main_feels_like = none ∨
      d.main_humidity = none ∨ d.wind_speed = none ∨
      d.weather0_description = none ∨ d.clouds_all = none ∨
      d.main_pressure = none) →
      parse_response d =
        .error "Unable to parse weather data: unexpected API response format") ∧
    (∀ t fl h ws desc ca p,
      d.main_temp = some t → d.main_feels_like = some fl →
      d.main_humidity = some h → d.wind_speed = some ws →
      d.weather0_description = some desc → d.clouds_all = some ca →
      d.main_pressure = some p →
      parse_response d = .ok
        { temperature := t, feels_like := fl, humidity := h,
          wind_speed := ws, wind_direction := d.wind_deg.getD 0,
          weather_condition := desc, cloud_coverage := ca,
          visibility := d.visibility, pressure := p }) := by
  constructor
  · intro hmiss
    obtain ⟨mt, mfl, mh, mp, ws, wd, desc0, ca, vis⟩ := d
    dsimp at hmiss ⊢
    cases mt <;> cases mfl <;> cases mh <;> cases ws <;> cases desc0 <;>
      cases ca <;> cases mp <;> simp_all [parse_response]
  · intro t fl h ws desc ca p h1 h2 h3 h4 h5 h6 h7
    obtain ⟨mt, mfl, mh, mp, wsf, wd, desc0, caf, vis⟩ := d
    dsimp at h1 h2 h3 h4 h5 h6 h7 ⊢
    subst h1 h2 h3 h4 h5 h6 h7
    rfl

/-- A complete raw response with `wind.deg` and `visibility` both
absent. -/
def rawFull : RawResponse :=
  { main_temp := some 28, main_feels_like := some 30,
    main_humidity := some 75, main_pressure := some 1013,
    wind_speed := some 3, wind_deg := none,
    weather0_description := some "clear sky", clouds_all := some 20,
    visibility := none }

/-- C9, witness: dropping the temperature makes the parse fail; the full
response parses with wind direction defaulted to `0` and visibility still
absent. -/
theorem parse_mandatory_and_optional_fields_witness :
    parse_response { rawFull with main_temp := none } =
      .error "Unable to parse weather data: unexpected API response format" ∧
    parse_response rawFull = .ok
      { temperature := 28, feels_like := 30, humidity := 75, wind_speed := 3,
        wind_direction := rawFull.wind_deg.getD 0,
        weather_condition := "clear sky", cloud_coverage := 20,
        visibility := rawFull.visibility, pressure := 1013 } :=
  ⟨(parse_mandatory_and_optional_fields { rawFull with main_temp := none }).1
      (Or.inl rfl),
   (parse_mandatory_and_optional_fields rawFull).2 28 30 75 3 "clear sky" 20
      1013 rfl rfl rfl rfl rfl rfl rfl⟩

end Kadalvazhi
